import Mathlib

/-!
Shallow embedding of the AI widget backend: backend/models.py, backend/db.py,
backend/widget_runner.py and the run_widget endpoint of backend/main.py.

Files on disk are modelled as association lists from file name to file
content, the Python module registry (sys.modules) as a list of module names,
and timestamps as natural numbers (milliseconds for time.time times 1000, an
abstract tick for datetime.utcnow).  Loading a source text with importlib is
not interpreted; its outcome is a Bundle value, and the endpoint takes the
loader semantics as a function from the code string to a Bundle.
-/

namespace WidgetBackend

/-- models.WidgetCreate: the data the generation step must return. -/
structure WidgetCreate where
  name : String
  category : String
  python_code : String
  html_code : String
  deriving DecidableEq

/-- models.Widget: a widget after it has been saved (inherits WidgetCreate). -/
structure Widget extends WidgetCreate where
  id : Nat
  creation_date : Nat
  usage_count : Nat
  deriving DecidableEq

/-- The serialized widget document produced by model_dump in json mode and
written with json.dump.  The exact byte layout of the document is not a
compatibility requirement, so it is modelled field by field. -/
structure WidgetJson where
  name : String
  category : String
  python_code : String
  html_code : String
  id : Nat
  creation_date : Nat
  usage_count : Nat
  deriving DecidableEq

/-- Serialization: new_widget.model_dump in json mode, as written by
db.create_widget and db.increment_usage_count. -/
def widget_model_dump (w : Widget) : WidgetJson :=
  { name := w.name, category := w.category, python_code := w.python_code,
    html_code := w.html_code, id := w.id, creation_date := w.creation_date,
    usage_count := w.usage_count }

/-- Deserialization: models.Widget(**data) applied to a well-formed document. -/
def widget_from_json (j : WidgetJson) : Widget :=
  { name := j.name, category := j.category, python_code := j.python_code,
    html_code := j.html_code, id := j.id, creation_date := j.creation_date,
    usage_count := j.usage_count }

/-- Content of one file in the widgets directory, distinguished the way the
readers in db.py distinguish it: a well-formed widget document; text that is
not valid JSON, so json.load raises JSONDecodeError; valid JSON that is not
an object, so Widget(**data) raises TypeError; a JSON object whose fields
fail model validation, so Widget(**data) raises pydantic.ValidationError. -/
inductive FileContent where
  | json (j : WidgetJson)
  | malformed
  | nonObject
  | badFields
  deriving DecidableEq

/-- The widgets directory: file name to file content. -/
abbrev Dir := List (String × FileContent)

/-- The file that stores the widget with a given id: os.path.join of
WIDGETS_DIR with the id rendered in decimal followed by the json suffix. -/
def widget_file_name (widget_id : Nat) : String := toString widget_id ++ ".json"

/-- Reading a file by name: os.path.exists plus open for reading. -/
def findFile : Dir → String → Option FileContent
  | [], _ => none
  | (n, c) :: rest, name => if n = name then some c else findFile rest name

/-- Writing a file: open in w mode truncates, so any file of that name is
overwritten. -/
def writeFile (dir : Dir) (name : String) (c : FileContent) : Dir :=
  (name, c) :: dir.filter (fun p => p.1 ≠ name)

/-- db.create_widget: the id is int(time.time() * 1000), passed here as the
parameter now_ms; the creation date is datetime.utcnow(), passed as utcnow.
The new widget is serialized and written to its file, and returned. -/
def create_widget (now_ms utcnow : Nat) (widget_data : WidgetCreate) (dir : Dir) :
    Widget × Dir :=
  let widget_id := now_ms
  let new_widget : Widget :=
    { toWidgetCreate := widget_data, id := widget_id, creation_date := utcnow,
      usage_count := 0 }
  (new_widget,
    writeFile dir (widget_file_name widget_id) (FileContent.json (widget_model_dump new_widget)))

/-- db.get_widget_by_id: a missing file returns None; an existing file is
opened, json.load is applied and Widget(**data) is built, either of which can
raise, modelled as the error branch carrying the exception name. -/
def get_widget_by_id (dir : Dir) (widget_id : Nat) : Except String (Option Widget) :=
  match findFile dir (widget_file_name widget_id) with
  | none => Except.ok none
  | some (FileContent.json j) => Except.ok (some (widget_from_json j))
  | some FileContent.malformed => Except.error "json.JSONDecodeError"
  | some FileContent.nonObject => Except.error "TypeError"
  | some FileContent.badFields => Except.error "pydantic.ValidationError"

/-- db.increment_usage_count: reads through get_widget_by_id (so a raised
exception propagates), returns with no write when the widget is missing, and
otherwise rewrites the record with usage_count increased by one. -/
def increment_usage_count (dir : Dir) (widget_id : Nat) : Except String Dir :=
  match get_widget_by_id dir widget_id with
  | Except.error e => Except.error e
  | Except.ok none => Except.ok dir
  | Except.ok (some widget) =>
    let widget := { widget with usage_count := widget.usage_count + 1 }
    Except.ok
      (writeFile dir (widget_file_name widget_id) (FileContent.json (widget_model_dump widget)))

/-- filename.endswith for the json suffix: the character list of the suffix
is a suffix of the character list of the file name. -/
def hasJsonSuffix (n : String) : Bool := List.isSuffixOf ".json".data n.data

/-- Lexicographic comparison of character lists by code point. -/
def charListLt : List Char → List Char → Bool
  | _, [] => false
  | [], _ :: _ => true
  | c :: cs, d :: ds =>
    if c.val < d.val then true
    else if d.val < c.val then false
    else charListLt cs ds

/-- Python string comparison: lexicographic on code points. -/
def strLt (a b : String) : Bool := charListLt a.data b.data

/-- Insertion of one directory entry into a list that is sorted by strictly
descending file name. -/
def insertByNameDesc (x : String × FileContent) :
    List (String × FileContent) → List (String × FileContent)
  | [] => [x]
  | y :: ys => if strLt y.1 x.1 then x :: y :: ys else y :: insertByNameDesc x ys

/-- sorted(os.listdir(WIDGETS_DIR), reverse=True): the directory entries in
descending lexicographic order of file name. -/
def sortByNameDesc : List (String × FileContent) → List (String × FileContent)
  | [] => []
  | x :: xs => insertByNameDesc x (sortByNameDesc xs)

/-- Loop body of db.get_all_widgets over the sorted listing: files ending in
the json suffix are parsed and appended; JSONDecodeError and TypeError are
caught and the file is skipped with a printed warning; a validation error
from Widget(**data) is not caught and aborts the whole listing. -/
def listWidgets : List (String × FileContent) → Except String (List Widget)
  | [] => Except.ok []
  | (n, c) :: rest =>
    if hasJsonSuffix n then
      match c with
      | FileContent.json j => (listWidgets rest).map (fun ws => widget_from_json j :: ws)
      | FileContent.malformed => listWidgets rest
      | FileContent.nonObject => listWidgets rest
      | FileContent.badFields => Except.error "pydantic.ValidationError"
    else listWidgets rest

/-- db.get_all_widgets. -/
def get_all_widgets (dir : Dir) : Except String (List Widget) :=
  listWidgets (sortByNameDesc dir)

/-- The inputs dictionary handed to run_widget. -/
abbrev Inputs := List (String × String)

/-- Python dictionary read. -/
def dictGet : Inputs → String → Option String
  | [], _ => none
  | (k, v) :: rest, key => if k = key then some v else dictGet rest key

/-- Python dictionary assignment: replaces the value in place when the key
exists, appends otherwise. -/
def dictSet (m : Inputs) (key v : String) : Inputs :=
  if m.any (fun p => p.1 = key) then
    m.map (fun p => if p.1 = key then (key, v) else p)
  else m ++ [(key, v)]

/-- The run_widget attribute of a loaded module: either a callable, whose
raising is modelled as the error branch carrying the exception message, or a
bound value that is not callable. -/
inductive PyAttr where
  | callable (f : Inputs → Except String String)
  | notCallable

/-- A loaded widget module: its run_widget attribute, when it has one. -/
structure PyModule where
  run_widget_attr : Option PyAttr

/-- Outcome of materializing and loading a code bundle with importlib: the
module spec cannot be created, so an ImportError is raised before the module
is registered; exec_module raises while running the file after registration;
or a module results. -/
inductive Bundle where
  | specFails (msg : String)
  | execFails (msg : String)
  | loaded (m : PyModule)

/-- The errors execute_widget_code can surface: an ImportError or a failure
of exec_module while loading; an AttributeError for the absent entry point;
any exception propagated out of the entry point call. -/
inductive ExecError where
  | loadError (msg : String)
  | missingEntryPoint
  | executionFailure (msg : String)
  deriving DecidableEq

/-- Removal of a name: del sys.modules[name] or os.remove of a path. -/
def removeName (l : List String) (name : String) : List String :=
  l.filter (fun q => q ≠ name)

/-- Registration of a name, present exactly once afterwards:
sys.modules[name] = module, or writing a file at a path. -/
def insertName (l : List String) (name : String) : List String :=
  name :: removeName l name

/-- Line 12 of widget_runner.py: the loader identity, one fixed constant. -/
def module_name : String := "dynamic_widget_module"

/-- The loadable identity execute_widget_code uses for one invocation: the
source binds the constant module_name regardless of the bundle and inputs of
the invocation. -/
def invocation_loader_identity (_b : Bundle) (_inputs : Inputs) : String := module_name

/-- Outcome of the try block of execute_widget_code: a failing spec raises
ImportError and a failing exec_module raises its exception, both surfacing as
load errors; a module without the run_widget attribute raises AttributeError
(hasattr is the only check, so a run_widget that is bound but not callable
passes it and raises TypeError at the call, re-raised by the generic except
clause like any entry-point exception); otherwise the entry point runs and
its value or its exception is the outcome. -/
def run_bundle (b : Bundle) (inputs : Inputs) : Except ExecError String :=
  match b with
  | Bundle.specFails msg => Except.error (ExecError.loadError msg)
  | Bundle.execFails msg => Except.error (ExecError.loadError msg)
  | Bundle.loaded m =>
    match m.run_widget_attr with
    | none => Except.error ExecError.missingEntryPoint
    | some PyAttr.notCallable =>
      Except.error (ExecError.executionFailure "TypeError: run_widget object is not callable")
    | some (PyAttr.callable f) =>
      match f inputs with
      | Except.ok r => Except.ok r
      | Except.error msg => Except.error (ExecError.executionFailure msg)

/-- Registry evolution of one executor invocation: any stale registration of
the fixed module name is deleted on entry; the fresh module is registered
under that same name unless the spec could not even be created; the finally
block deletes the registration again on every exit path. -/
def executor_registry (b : Bundle) (reg : List String) : List String :=
  let reg1 := removeName reg module_name
  match b with
  | Bundle.specFails _ => removeName reg1 module_name
  | _ => removeName (insertName reg1 module_name) module_name

/-- widget_runner.execute_widget_code: the outcome of the try block paired
with the module registry as the finally block leaves it. -/
def execute_widget_code (b : Bundle) (inputs : Inputs) (reg : List String) :
    Except ExecError String × List String :=
  (run_bundle b inputs, executor_registry b reg)

/-- The message the endpoint interpolates for each executor error. -/
def execErrorMessage : ExecError → String
  | ExecError.loadError m => m
  | ExecError.missingEntryPoint => "Widget code is missing the required run_widget function."
  | ExecError.executionFailure m => m

/-- One value of the multipart form: a scalar field, or a file upload with
its client-side file name. -/
inductive FormValue where
  | scalar (s : String)
  | upload (filename : String)
  deriving DecidableEq

/-- The destination of an uploaded file, keyed by the uploaded file name. -/
def upload_path (filename : String) : String := "uploads/" ++ filename

/-- The form loop of run_widget_endpoint: scalars pass through into the
inputs dictionary; an upload with a non-empty file name is appended to
temp_file_paths, written under the uploads area (overwriting a file of the
same name), and its path is substituted for the field.  An upload whose file
name is empty fails the truthiness test and falls into the scalar branch,
where the raw upload object itself becomes the value; this is modelled as a
marker string. -/
def marshal_form : List (String × FormValue) → Inputs → List String → List String →
    Inputs × List String × List String
  | [], inputs, paths, ud => (inputs, paths, ud)
  | (key, FormValue.scalar v) :: rest, inputs, paths, ud =>
    marshal_form rest (dictSet inputs key v) paths ud
  | (key, FormValue.upload fn) :: rest, inputs, paths, ud =>
    if fn = "" then marshal_form rest (dictSet inputs key "UploadFile object") paths ud
    else
      marshal_form rest (dictSet inputs key (upload_path fn)) (paths ++ [upload_path fn])
        (insertName ud (upload_path fn))

/-- The response of the run endpoint: the success JSON with the str of the
result, the 500 error JSON, or the 404 HTTPException raised before the try. -/
inductive Response where
  | output (s : String)
  | err (msg : String)
  | notFound (detail : String)
  deriving DecidableEq

/-- The observable process state the endpoint touches: the widgets directory,
the temporary python files on disk, the files under the uploads area, and the
module registry. -/
structure Sys where
  widgets : Dir
  tmp : List String
  uploads : List String
  modules : List String
  deriving DecidableEq

/-- main.run_widget_endpoint: looks the widget up before the try block (so a
read exception propagates unhandled and a missing widget raises the 404
immediately, with no state change); inside the try it writes the code bundle
to a fresh named temporary file, marshals the form, executes the bundle,
increments the usage count on success, and builds the success or error
response; the finally block removes the temporary file and every materialized
upload path on every exit path before the response is returned.  The loader
semantics of the code string is the parameter pyLoad, and the fresh temporary
file name chosen by tempfile is the parameter tmpName. -/
def run_widget_endpoint (pyLoad : String → Bundle) (tmpName : String) (s : Sys)
    (widget_id : Nat) (form : List (String × FormValue)) :
    Except String (Response × Sys) :=
  match get_widget_by_id s.widgets widget_id with
  | Except.error e => Except.error e
  | Except.ok none => Except.ok (Response.notFound "Widget data not found.", s)
  | Except.ok (some widget) =>
    let s1 : Sys := { s with tmp := insertName s.tmp tmpName }
    let m := marshal_form form [] [] s1.uploads
    let inputs := m.1
    let temp_file_paths := m.2.1
    let s2 : Sys := { s1 with uploads := m.2.2 }
    let er := execute_widget_code (pyLoad widget.python_code) inputs s2.modules
    let s3 : Sys := { s2 with modules := er.2 }
    let rs : Response × Dir :=
      match er.1 with
      | Except.ok result =>
        match increment_usage_count s3.widgets widget_id with
        | Except.ok dir2 => (Response.output result, dir2)
        | Except.error e =>
          (Response.err ("An error occurred during execution: " ++ e), s3.widgets)
      | Except.error e =>
        (Response.err ("An error occurred during execution: " ++ execErrorMessage e), s3.widgets)
    Except.ok (rs.1,
      { widgets := rs.2,
        tmp := removeName s3.tmp tmpName,
        uploads := temp_file_paths.foldl removeName s3.uploads,
        modules := s3.modules })

/-- A sample widget definition used in concrete instances. -/
def sample_create : WidgetCreate :=
  { name := "Adder", category := "numerical",
    python_code := "def run_widget(inputs): return out", html_code := "<p>go</p>" }

/-- A sample stored widget used in concrete instances. -/
def sample_widget : Widget :=
  { toWidgetCreate := sample_create, id := 42, creation_date := 7, usage_count := 3 }

/-- A one-widget directory used in concrete instances. -/
def sample_dir : Dir :=
  [(widget_file_name 42, FileContent.json (widget_model_dump sample_widget))]

/-- A process state with the sample widget stored, a pre-existing upload and
a stale module registration. -/
def sample_sys : Sys :=
  { widgets := sample_dir, tmp := [], uploads := ["uploads/photo.png"],
    modules := ["dynamic_widget_module"] }

/-- The scenario widget of the spec: category numerical, code computing the
arithmetic sum of inputs a and b. -/
def scenario_code : String :=
  "def run_widget(inputs): return str(int(inputs[a]) + int(inputs[b]))"

/-- The value of one decimal digit character. -/
def digitVal (c : Char) : Option Nat :=
  if c = '0' then some 0 else if c = '1' then some 1 else if c = '2' then some 2
  else if c = '3' then some 3 else if c = '4' then some 4 else if c = '5' then some 5
  else if c = '6' then some 6 else if c = '7' then some 7 else if c = '8' then some 8
  else if c = '9' then some 9 else none

/-- Accumulating decimal parse over a character list. -/
def parseNatAux : List Char → Nat → Option Nat
  | [], acc => some acc
  | c :: cs, acc =>
    match digitVal c with
    | some d => parseNatAux cs (acc * 10 + d)
    | none => none

/-- int() applied to a plain decimal string of digits, the only shape the
scenario uses. -/
def parseNat (s : String) : Option Nat :=
  match s.data with
  | [] => none
  | cs => parseNatAux cs 0

/-- The entry point the scenario code defines: parses the two form strings as
integers, adds them, and formats the result as a string; a missing key or an
unparsable number raises. -/
def add_entry (inputs : Inputs) : Except String String :=
  match dictGet inputs "a", dictGet inputs "b" with
  | some a, some b =>
    match parseNat a, parseNat b with
    | some x, some y => Except.ok (toString (x + y))
    | _, _ => Except.error "ValueError"
  | _, _ => Except.error "KeyError"

/-- The scenario widget as stored. -/
def scenario_widget : Widget :=
  { name := "Adder", category := "numerical", python_code := scenario_code,
    html_code := "<form><button type=submit>Run</button></form>",
    id := 100, creation_date := 100, usage_count := 0 }

/-- The directory holding only the scenario widget. -/
def scenario_dir : Dir :=
  [(widget_file_name 100, FileContent.json (widget_model_dump scenario_widget))]

/-- The process state for the scenario run. -/
def scenario_sys : Sys :=
  { widgets := scenario_dir, tmp := [], uploads := [], modules := [] }

/-- Loader semantics for the scenario: the scenario code loads to a module
whose run_widget is the arithmetic entry point. -/
def scenario_load : String → Bundle := fun code =>
  if code = scenario_code then Bundle.loaded ⟨some (PyAttr.callable add_entry)⟩
  else Bundle.specFails "SyntaxError"

/-- The scenario widget after its one successful execution. -/
def scenario_widget_after : Widget := { scenario_widget with usage_count := 1 }

/-- The process state after the scenario run: the rewritten record, no
temporary file, no upload, no module registration. -/
def scenario_final : Sys :=
  { widgets := writeFile scenario_dir (widget_file_name 100)
      (FileContent.json (widget_model_dump scenario_widget_after)),
    tmp := [], uploads := [], modules := [] }

/-- An older and a newer widget whose ids have different decimal widths. -/
def widget999 : Widget :=
  { name := "older", category := "query", python_code := "", html_code := "",
    id := 999, creation_date := 999, usage_count := 0 }

/-- The newer of the two width-mismatch widgets. -/
def widget1000 : Widget :=
  { name := "newer", category := "query", python_code := "", html_code := "",
    id := 1000, creation_date := 1000, usage_count := 0 }

/-- A directory holding both width-mismatch widgets. -/
def order_dir : Dir :=
  [(widget_file_name 1000, FileContent.json (widget_model_dump widget1000)),
   (widget_file_name 999, FileContent.json (widget_model_dump widget999))]

/-- A directory holding one record that fails validation next to one good
record and one malformed record. -/
def abort_dir : Dir :=
  [(widget_file_name 100, FileContent.badFields),
   (widget_file_name 99, FileContent.json (widget_model_dump widget999)),
   (widget_file_name 98, FileContent.malformed)]

/-- A directory with a good record and a malformed record but nothing that
fails validation. -/
def tolerant_dir : Dir :=
  [(widget_file_name 99, FileContent.json (widget_model_dump widget999)),
   (widget_file_name 98, FileContent.malformed)]

/-- A directory whose only record file holds text that is not valid JSON. -/
def corrupt_dir : Dir := [(widget_file_name 9, FileContent.malformed)]

/-- What one entry of the sorted listing contributes to get_all_widgets when
no entry aborts it. -/
def parse_listing_entry (p : String × FileContent) : Option Widget :=
  if hasJsonSuffix p.1 then
    match p.2 with
    | FileContent.json j => some (widget_from_json j)
    | _ => none
  else none

theorem widget_roundtrip (w : Widget) : widget_from_json (widget_model_dump w) = w := rfl

theorem findFile_writeFile (dir : Dir) (name : String) (c : FileContent) :
    findFile (writeFile dir name c) name = some c := by
  simp [findFile, writeFile]

theorem not_mem_removeName (l : List String) (name : String) : name ∉ removeName l name := by
  intro h
  have h2 := (List.mem_filter.mp h).2
  simp at h2

theorem not_mem_removeName_of (l : List String) (p name : String) (h : name ∉ l) :
    name ∉ removeName l p :=
  fun hm => h (List.mem_filter.mp hm).1

theorem not_mem_foldl_removeName_of (paths : List String) (l : List String) (name : String)
    (h : name ∉ l) : name ∉ paths.foldl removeName l := by
  induction paths generalizing l with
  | nil => exact h
  | cons p rest ih =>
    simp only [List.foldl_cons]
    exact ih _ (not_mem_removeName_of l p name h)

theorem not_mem_foldl_removeName (paths : List String) (l : List String) (name : String)
    (h : name ∈ paths) : name ∉ paths.foldl removeName l := by
  induction paths generalizing l with
  | nil => cases h
  | cons p rest ih =>
    simp only [List.foldl_cons]
    rcases List.mem_cons.mp h with heq | hr
    · subst heq
      exact not_mem_foldl_removeName_of rest _ name (not_mem_removeName l name)
    · exact ih _ hr

theorem executor_registry_evicts (b : Bundle) (reg : List String) :
    module_name ∉ executor_registry b reg := by
  cases b with
  | specFails msg => exact not_mem_removeName _ _
  | execFails msg => exact not_mem_removeName _ _
  | loaded m => exact not_mem_removeName _ _

theorem execute_evicts_module (b : Bundle) (inputs : Inputs) (reg : List String) :
    module_name ∉ (execute_widget_code b inputs reg).2 :=
  executor_registry_evicts b reg

theorem marshal_paths_mono (form : List (String × FormValue)) (inputs : Inputs)
    (paths ud : List String) (x : String) (hx : x ∈ paths) :
    x ∈ (marshal_form form inputs paths ud).2.1 := by
  induction form generalizing inputs paths ud with
  | nil => exact hx
  | cons kv rest ih =>
    obtain ⟨key, v⟩ := kv
    cases v with
    | scalar s => exact ih _ _ _ hx
    | upload fn =>
      simp only [marshal_form]
      by_cases hfn : fn = ""
      · rw [if_pos hfn]
        exact ih _ _ _ hx
      · rw [if_neg hfn]
        exact ih _ _ _ (List.mem_append_left _ hx)

theorem marshal_collects_upload (form : List (String × FormValue)) (inputs : Inputs)
    (paths ud : List String) (key fn : String)
    (hmem : (key, FormValue.upload fn) ∈ form) (hfn : fn ≠ "") :
    upload_path fn ∈ (marshal_form form inputs paths ud).2.1 := by
  induction form generalizing inputs paths ud with
  | nil => cases hmem
  | cons kv rest ih =>
    rcases List.mem_cons.mp hmem with heq | hr
    · subst heq
      simp only [marshal_form]
      rw [if_neg hfn]
      exact marshal_paths_mono _ _ _ _ _ (List.mem_append_right _ (List.mem_singleton.mpr rfl))
    · obtain ⟨k2, v2⟩ := kv
      cases v2 with
      | scalar s => exact ih _ _ _ hr
      | upload fn2 =>
        simp only [marshal_form]
        by_cases hfn2 : fn2 = ""
        · rw [if_pos hfn2]
          exact ih _ _ _ hr
        · rw [if_neg hfn2]
          exact ih _ _ _ hr

theorem mem_insertByNameDesc (x y : String × FileContent) (l : List (String × FileContent)) :
    y ∈ insertByNameDesc x l ↔ y = x ∨ y ∈ l := by
  induction l with
  | nil => simp [insertByNameDesc]
  | cons z zs ih =>
    simp only [insertByNameDesc]
    split
    · simp [List.mem_cons]
    · simp only [List.mem_cons, ih]
      tauto

theorem mem_sortByNameDesc (y : String × FileContent) (l : List (String × FileContent)) :
    y ∈ sortByNameDesc l ↔ y ∈ l := by
  induction l with
  | nil => simp [sortByNameDesc]
  | cons x xs ih =>
    simp only [sortByNameDesc, mem_insertByNameDesc, ih, List.mem_cons]

theorem listWidgets_eq_filterMap (l : List (String × FileContent))
    (h : ∀ p ∈ l, p.2 ≠ FileContent.badFields) :
    listWidgets l = Except.ok (l.filterMap parse_listing_entry) := by
  induction l with
  | nil => rfl
  | cons p rest ih =>
    obtain ⟨n, c⟩ := p
    have hrest : ∀ q ∈ rest, q.2 ≠ FileContent.badFields :=
      fun q hq => h q (List.mem_cons_of_mem _ hq)
    have hc := h (n, c) (List.mem_cons_self _ _)
    simp only [listWidgets, List.filterMap_cons, parse_listing_entry]
    by_cases hn : hasJsonSuffix n = true
    · rw [if_pos hn, if_pos hn]
      cases c with
      | json j => rw [ih hrest]; rfl
      | malformed => exact ih hrest
      | nonObject => exact ih hrest
      | badFields => exact absurd rfl hc
    · rw [if_neg hn, if_neg hn]
      exact ih hrest

theorem listWidgets_error_of_badFields (l : List (String × FileContent)) (n : String)
    (hmem : (n, FileContent.badFields) ∈ l) (hn : hasJsonSuffix n = true) :
    listWidgets l = Except.error "pydantic.ValidationError" := by
  induction l with
  | nil => cases hmem
  | cons p rest ih =>
    rcases List.mem_cons.mp hmem with heq | hr
    · subst heq
      simp only [listWidgets]
      rw [if_pos hn]
    · obtain ⟨m, c⟩ := p
      simp only [listWidgets]
      by_cases hm : hasJsonSuffix m = true
      · rw [if_pos hm]
        cases c with
        | json j => rw [ih hr]; rfl
        | malformed => exact ih hr
        | nonObject => exact ih hr
        | badFields => rfl
      · rw [if_neg hm]
        exact ih hr

theorem get_after_write (dir : Dir) (i : Nat) (j : WidgetJson) :
    get_widget_by_id (writeFile dir (widget_file_name i) (FileContent.json j)) i =
      Except.ok (some (widget_from_json j)) := by
  unfold get_widget_by_id
  rw [findFile_writeFile]

theorem execute_fst (b : Bundle) (inputs : Inputs) (reg : List String) :
    (execute_widget_code b inputs reg).1 = run_bundle b inputs := rfl

/-- Claim C1: the claim requires a fresh, per-invocation-unique loadable
identity.  The code instead binds one fixed module name for every invocation:
any two invocations of the executor, with any bundles and inputs, use the
same loader identity, the constant dynamic_widget_module. -/
theorem C1_loader_identity_shared :
    (∀ (b1 : Bundle) (i1 : Inputs) (b2 : Bundle) (i2 : Inputs),
      invocation_loader_identity b1 i1 = invocation_loader_identity b2 i2) ∧
    invocation_loader_identity (Bundle.loaded ⟨none⟩) [] = "dynamic_widget_module" :=
  ⟨fun _ _ _ _ => rfl, rfl⟩

/-- Claim C2, counterexample: two successful create operations that observe
the same millisecond clock value receive the same id, so ids assigned by
distinct creates are neither always distinct nor strictly increasing. -/
theorem C2_counterexample :
    (create_widget 1700000000000 0 sample_create
        (create_widget 1700000000000 0 sample_create []).2).1.id =
      (create_widget 1700000000000 0 sample_create []).1.id ∧
    (create_widget 1700000000000 0 sample_create []).1.id = 1700000000000 :=
  ⟨rfl, rfl⟩

/-- Claim C2, amended: when the millisecond clock strictly increases between
two creates, the later widget receives a strictly greater, hence distinct,
id; two creates within the same millisecond receive the same id. -/
theorem C2_amended (t1 u1 t2 u2 : Nat) (d1 d2 : WidgetCreate) (dir : Dir) (h : t1 < t2) :
    (create_widget t1 u1 d1 dir).1.id <
      (create_widget t2 u2 d2 (create_widget t1 u1 d1 dir).2).1.id ∧
    (create_widget t1 u1 d1 dir).1.id ≠
      (create_widget t2 u2 d2 (create_widget t1 u1 d1 dir).2).1.id :=
  ⟨h, Nat.ne_of_lt h⟩

/-- Claim C2, witness for the amended theorem at clock values 1 and 2. -/
theorem C2_witness :
    (create_widget 1 0 sample_create []).1.id <
      (create_widget 2 0 sample_create (create_widget 1 0 sample_create []).2).1.id ∧
    (create_widget 1 0 sample_create []).1.id ≠
      (create_widget 2 0 sample_create (create_widget 1 0 sample_create []).2).1.id :=
  C2_amended 1 0 2 0 sample_create sample_create [] (by decide)

/-- Claim C3: on every exit path of a widget execution, success, load
failure, missing entry point or an exception inside the entry point, the
endpoint returns with the loaded unit evicted from the module registry, the
temporary bundle file deleted, and every upload materialized for the
invocation removed. -/
theorem C3_cleanup (pyLoad : String → Bundle) (tmpName : String) (s : Sys) (wid : Nat)
    (form : List (String × FormValue)) (w : Widget)
    (h : get_widget_by_id s.widgets wid = Except.ok (some w)) :
    ∃ resp s5, run_widget_endpoint pyLoad tmpName s wid form = Except.ok (resp, s5) ∧
      tmpName ∉ s5.tmp ∧ module_name ∉ s5.modules ∧
      ∀ key fn, (key, FormValue.upload fn) ∈ form → fn ≠ "" →
        upload_path fn ∉ s5.uploads := by
  unfold run_widget_endpoint
  rw [h]
  refine ⟨_, _, rfl, ?_, ?_, ?_⟩
  · exact not_mem_removeName _ _
  · show module_name ∉ executor_registry (pyLoad w.python_code) s.modules
    exact executor_registry_evicts _ _
  · intro key fn hmem hfn
    exact not_mem_foldl_removeName _ _ _
      (marshal_collects_upload form [] [] s.uploads key fn hmem hfn)

/-- Claim C3, witness: a failing load with one upload and one scalar field,
on a state with a stale registration and a pre-existing upload of the same
name. -/
theorem C3_witness :
    ∃ resp s5,
      run_widget_endpoint (fun _ => Bundle.execFails "SyntaxError") "tmp1.py" sample_sys 42
          [("img", FormValue.upload "photo.png"), ("note", FormValue.scalar "hi")] =
        Except.ok (resp, s5) ∧
      "tmp1.py" ∉ s5.tmp ∧ module_name ∉ s5.modules ∧
      ∀ key fn,
        (key, FormValue.upload fn) ∈
          [("img", FormValue.upload "photo.png"), ("note", FormValue.scalar "hi")] →
        fn ≠ "" → upload_path fn ∉ s5.uploads :=
  C3_cleanup _ _ _ _ _ sample_widget rfl

/-- Claim C4: creating a widget and reading back the created id returns a
record equal field for field to the record create returned, and the record
round-trips losslessly through serialize and deserialize. -/
theorem C4_roundtrip (now_ms utcnow : Nat) (wd : WidgetCreate) (dir : Dir) :
    get_widget_by_id (create_widget now_ms utcnow wd dir).2
        (create_widget now_ms utcnow wd dir).1.id =
      Except.ok (some (create_widget now_ms utcnow wd dir).1) ∧
    ∀ w : Widget, widget_from_json (widget_model_dump w) = w :=
  ⟨get_after_write dir now_ms
      (widget_model_dump (create_widget now_ms utcnow wd dir).1),
    fun _ => rfl⟩

/-- Claim C5, counterexample: a loaded unit whose run_widget attribute is
bound but not callable has no callable entry point named run_widget, yet the
executor does not fail with the missing-entry-point error; the hasattr check
passes and the TypeError raised at the call surfaces as an execution
failure. -/
theorem C5_counterexample :
    (¬ ∃ f, (PyModule.mk (some PyAttr.notCallable)).run_widget_attr =
      some (PyAttr.callable f)) ∧
    (execute_widget_code (Bundle.loaded (PyModule.mk (some PyAttr.notCallable))) [] []).1 ≠
      Except.error ExecError.missingEntryPoint ∧
    (execute_widget_code (Bundle.loaded (PyModule.mk (some PyAttr.notCallable))) [] []).1 =
      Except.error
        (ExecError.executionFailure "TypeError: run_widget object is not callable") := by
  refine ⟨?_, ?_, rfl⟩
  · rintro ⟨f, hf⟩
    injection hf with h2
    exact PyAttr.noConfusion h2
  · intro hcon
    injection hcon with h2
    exact ExecError.noConfusion h2

/-- Claim C5, amended: the executor fails with the missing-entry-point error
exactly when the loaded unit has no attribute named run_widget at all; a
bundle that cannot be loaded fails with a load error carrying the message; a
run_widget attribute that is not callable surfaces as an execution failure
with the TypeError message; and any exception raised inside the entry point
is surfaced as an execution failure carrying the original message, never
swallowed, while a returned value is passed through. -/
theorem C5_amended (inputs : Inputs) (reg : List String) :
    (∀ msg, (execute_widget_code (Bundle.specFails msg) inputs reg).1 =
      Except.error (ExecError.loadError msg)) ∧
    (∀ msg, (execute_widget_code (Bundle.execFails msg) inputs reg).1 =
      Except.error (ExecError.loadError msg)) ∧
    ((execute_widget_code (Bundle.loaded ⟨none⟩) inputs reg).1 =
      Except.error ExecError.missingEntryPoint) ∧
    ((execute_widget_code (Bundle.loaded ⟨some PyAttr.notCallable⟩) inputs reg).1 =
      Except.error
        (ExecError.executionFailure "TypeError: run_widget object is not callable")) ∧
    (∀ f msg, f inputs = Except.error msg →
      (execute_widget_code (Bundle.loaded ⟨some (PyAttr.callable f)⟩) inputs reg).1 =
        Except.error (ExecError.executionFailure msg)) ∧
    (∀ f r, f inputs = Except.ok r →
      (execute_widget_code (Bundle.loaded ⟨some (PyAttr.callable f)⟩) inputs reg).1 =
        Except.ok r) := by
  refine ⟨fun msg => rfl, fun msg => rfl, rfl, rfl, ?_, ?_⟩
  · intro f msg hf
    rw [execute_fst]
    simp [run_bundle, hf]
  · intro f r hf
    rw [execute_fst]
    simp [run_bundle, hf]

/-- Claim C5, witness: an entry point that raises surfaces its message as an
execution failure, and an entry point that returns passes its value
through. -/
theorem C5_witness :
    (execute_widget_code
        (Bundle.loaded ⟨some (PyAttr.callable fun _ => Except.error "boom")⟩) [] []).1 =
      Except.error (ExecError.executionFailure "boom") ∧
    (execute_widget_code
        (Bundle.loaded ⟨some (PyAttr.callable fun _ => Except.ok "fine")⟩) [] []).1 =
      Except.ok "fine" :=
  ⟨(C5_amended [] []).2.2.2.2.1 _ "boom" rfl, (C5_amended [] []).2.2.2.2.2 _ "fine" rfl⟩

/-- Claim C6: for an id with no persisted record, get_widget_by_id returns
the not-found signal without raising, and the run endpoint answers the 404
not-found response with the process state unchanged: no record changed, no
file created. -/
theorem C6_missing_id (dir : Dir) (wid : Nat) (pyLoad : String → Bundle) (tmpName : String)
    (s : Sys) (form : List (String × FormValue))
    (h1 : findFile dir (widget_file_name wid) = none)
    (h2 : findFile s.widgets (widget_file_name wid) = none) :
    get_widget_by_id dir wid = Except.ok none ∧
    run_widget_endpoint pyLoad tmpName s wid form =
      Except.ok (Response.notFound "Widget data not found.", s) := by
  have hg1 : get_widget_by_id dir wid = Except.ok none := by
    unfold get_widget_by_id
    rw [h1]
  have hg2 : get_widget_by_id s.widgets wid = Except.ok none := by
    unfold get_widget_by_id
    rw [h2]
  refine ⟨hg1, ?_⟩
  unfold run_widget_endpoint
  rw [hg2]

/-- Claim C6, witness at an empty store. -/
theorem C6_witness :
    get_widget_by_id [] 5 = Except.ok none ∧
    run_widget_endpoint (fun _ => Bundle.specFails "e") "t.py"
        { widgets := [], tmp := [], uploads := [], modules := [] } 5 [] =
      Except.ok (Response.notFound "Widget data not found.",
        { widgets := [], tmp := [], uploads := [], modules := [] }) :=
  C6_missing_id [] 5 _ "t.py" _ [] rfl rfl

/-- Claim C7: increment_usage_count is a no-op when no record with the id
exists, and when the record exists it increases usage_count by exactly one
and leaves every other field of the record unchanged. -/
theorem C7_increment_usage (dir : Dir) (wid : Nat) :
    (findFile dir (widget_file_name wid) = none →
      increment_usage_count dir wid = Except.ok dir) ∧
    (∀ w : Widget, get_widget_by_id dir wid = Except.ok (some w) →
      ∃ dir2 w2, increment_usage_count dir wid = Except.ok dir2 ∧
        get_widget_by_id dir2 wid = Except.ok (some w2) ∧
        w2.usage_count = w.usage_count + 1 ∧ w2.id = w.id ∧ w2.name = w.name ∧
        w2.category = w.category ∧ w2.python_code = w.python_code ∧
        w2.html_code = w.html_code ∧ w2.creation_date = w.creation_date) := by
  constructor
  · intro h
    have hg : get_widget_by_id dir wid = Except.ok none := by
      unfold get_widget_by_id
      rw [h]
    unfold increment_usage_count
    rw [hg]
  · intro w h
    refine ⟨writeFile dir (widget_file_name wid)
        (FileContent.json (widget_model_dump { w with usage_count := w.usage_count + 1 })),
      { w with usage_count := w.usage_count + 1 },
      ?_, ?_, rfl, rfl, rfl, rfl, rfl, rfl, rfl⟩
    · unfold increment_usage_count
      rw [h]
    · exact get_after_write dir wid
        (widget_model_dump { w with usage_count := w.usage_count + 1 })

/-- Claim C7, witness: the no-op on an empty store, and the increment on the
sample store. -/
theorem C7_witness :
    increment_usage_count [] 42 = Except.ok [] ∧
    ∃ dir2 w2, increment_usage_count sample_dir 42 = Except.ok dir2 ∧
      get_widget_by_id dir2 42 = Except.ok (some w2) ∧
      w2.usage_count = sample_widget.usage_count + 1 ∧ w2.id = sample_widget.id ∧
      w2.name = sample_widget.name ∧ w2.category = sample_widget.category ∧
      w2.python_code = sample_widget.python_code ∧
      w2.html_code = sample_widget.html_code ∧
      w2.creation_date = sample_widget.creation_date :=
  ⟨(C7_increment_usage [] 42).1 rfl, (C7_increment_usage sample_dir 42).2 sample_widget rfl⟩

/-- Claim C8, counterexample: with stored ids 999 and 1000 the listing
returns the older widget first, because file names are compared
lexicographically, so the order is not most-recently-created first; and a
single record that fails field validation aborts the whole listing with an
error instead of being skipped while the rest is returned. -/
theorem C8_counterexample :
    get_all_widgets order_dir = Except.ok [widget999, widget1000] ∧
    widget999.creation_date < widget1000.creation_date ∧
    get_all_widgets abort_dir = Except.error "pydantic.ValidationError" := by
  refine ⟨rfl, by decide, rfl⟩

/-- Claim C8, amended: the listing returns the records of the json files in
descending lexicographic file-name order, which is most-recently-created
first only when all ids have the same decimal width; a record whose file is
not valid JSON or not a JSON object is skipped with a warning, while a record
holding a JSON object whose fields fail validation aborts the whole
listing. -/
theorem C8_amended (dir : Dir) :
    ((∀ p ∈ dir, p.2 ≠ FileContent.badFields) →
      get_all_widgets dir = Except.ok ((sortByNameDesc dir).filterMap parse_listing_entry)) ∧
    (∀ n, (n, FileContent.badFields) ∈ dir → hasJsonSuffix n = true →
      get_all_widgets dir = Except.error "pydantic.ValidationError") := by
  constructor
  · intro h
    exact listWidgets_eq_filterMap _ (fun p hp => h p ((mem_sortByNameDesc p dir).mp hp))
  · intro n hmem hn
    exact listWidgets_error_of_badFields _ n ((mem_sortByNameDesc _ dir).mpr hmem) hn

/-- Claim C8, witness: a store with one malformed record lists the rest, and
a store with one validation-failing record aborts. -/
theorem C8_witness :
    get_all_widgets tolerant_dir =
      Except.ok ((sortByNameDesc tolerant_dir).filterMap parse_listing_entry) ∧
    get_all_widgets abort_dir = Except.error "pydantic.ValidationError" :=
  ⟨(C8_amended tolerant_dir).1 (by decide),
    (C8_amended abort_dir).2 (widget_file_name 100) (by decide) (by decide)⟩

/-- Claim C9: executing the stored scenario widget, whose code computes the
arithmetic sum of inputs a and b, with the form payload a equal 2 and b
equal 3, returns the output string 5, and the usage count of the widget
becomes 1 after this single successful execution. -/
theorem C9_scenario :
    run_widget_endpoint scenario_load "tmp_widget.py" scenario_sys 100
        [("a", FormValue.scalar "2"), ("b", FormValue.scalar "3")] =
      Except.ok (Response.output "5", scenario_final) ∧
    get_widget_by_id scenario_final.widgets 100 = Except.ok (some scenario_widget_after) ∧
    scenario_widget_after.usage_count = 1 ∧ scenario_widget.usage_count = 0 := by
  refine ⟨rfl, rfl, rfl, rfl⟩

/-- Claim C10: when the record file of an id exists but is malformed or fails
validation, get_widget_by_id raises instead of returning the not-found
signal, and increment_usage_count propagates that exception instead of
behaving as a no-op. -/
theorem C10_strict_reads (dir : Dir) (wid : Nat) (c : FileContent)
    (hc : c = FileContent.malformed ∨ c = FileContent.nonObject ∨ c = FileContent.badFields)
    (h : findFile dir (widget_file_name wid) = some c) :
    (∃ e, get_widget_by_id dir wid = Except.error e) ∧
    get_widget_by_id dir wid ≠ Except.ok none ∧
    (∃ e, increment_usage_count dir wid = Except.error e) ∧
    ∀ dir2, increment_usage_count dir wid ≠ Except.ok dir2 := by
  have hg : ∃ e, get_widget_by_id dir wid = Except.error e := by
    rcases hc with rfl | rfl | rfl
    · exact ⟨_, by unfold get_widget_by_id; rw [h]⟩
    · exact ⟨_, by unfold get_widget_by_id; rw [h]⟩
    · exact ⟨_, by unfold get_widget_by_id; rw [h]⟩
  obtain ⟨e, he⟩ := hg
  have hi : increment_usage_count dir wid = Except.error e := by
    unfold increment_usage_count
    rw [he]
  refine ⟨⟨e, he⟩, ?_, ⟨e, hi⟩, ?_⟩
  · rw [he]
    simp
  · intro dir2
    rw [hi]
    simp

/-- Claim C10, witness on a store holding one malformed record. -/
theorem C10_witness :
    (∃ e, get_widget_by_id corrupt_dir 9 = Except.error e) ∧
    get_widget_by_id corrupt_dir 9 ≠ Except.ok none ∧
    (∃ e, increment_usage_count corrupt_dir 9 = Except.error e) ∧
    ∀ dir2, increment_usage_count corrupt_dir 9 ≠ Except.ok dir2 :=
  C10_strict_reads corrupt_dir 9 FileContent.malformed (Or.inl rfl) rfl

end WidgetBackend
